import Mathlib

/-
Verification of the response-framing core of `src/server.py`
(class `HttpServerConnection`): delimiter selection, response
rendering, the response-side state machine and the error path.
Machine state is passed explicitly; a Python exception is modelled as
the state reached so far paired with the exception that escaped.
-/

/-- Response-side phase of a connection (`WAITING` / `HEADERS_DONE`
from `common`, used by `server.py`). -/
inductive ResState where
  | WAITING
  | HEADERS_DONE
deriving DecidableEq, Repr

/-- Response delimiters (`CLOSE`, `COUNTED`, `CHUNKED`, `NONE` from
`common`, used by `server.py`). -/
inductive Delimiter where
  | CLOSE
  | COUNTED
  | CHUNKED
  | NONE
deriving DecidableEq, Repr

/-- The Python exceptions that can escape the modelled methods. -/
inductive PyExc where
  | assertionError
  | valueError
  | typeError
deriving DecidableEq, Repr

/-- An error dictionary (see `server.py`'s module docstring): a
`status` pair when present, a `desc` string, an optional `detail`. -/
structure ErrDescr where
  status : Option (String × String)
  desc : String
  detail : Option String
deriving DecidableEq, Repr

/-- Modelled from the spec: `common.py` is not under `src/`; per the
glossary and section 4.1 ("e.g. `Transfer-Encoding`, `Connection`"),
`hop_by_hop_hdrs` is the standard list of hop-by-hop header names,
lower-cased. -/
def hop_by_hop_hdrs : List String :=
  [("connection"), ("keep-alive"), ("proxy-authenticate"),
   ("proxy-authorization"), ("te"), ("trailers"),
   ("transfer-encoding"), ("upgrade")]

/-- Modelled from the spec: `common.py` is not under `src/`; per
sections 4.2 and 6 the wire format uses CRLF line endings, so
`linesep` is `"\r\n"`. -/
def linesep : String := "\r\n"

/-- Python `str.strip()`: remove leading and trailing whitespace. -/
def pyStrip (s : String) : String :=
  ⟨((s.data.dropWhile Char.isWhitespace).reverse.dropWhile Char.isWhitespace).reverse⟩

/-- Python `str.lower()`: lower-case every character. -/
def pyLower (s : String) : String := ⟨s.data.map Char.toLower⟩

/-- `name.strip().lower()`, the header-name normalisation of
`server.py`. -/
def normName (s : String) : String := pyLower (pyStrip s)

/-- Split a character list at every CRLF, for inspecting the lines of
a rendered header block. -/
def splitCRLF : List Char → List (List Char)
  | [] => [[]]
  | '\r' :: '\n' :: rest => [] :: splitCRLF rest
  | c :: rest =>
    match splitCRLF rest with
    | [] => [[c]]
    | h :: t => (c :: h) :: t

/-- The lines of a wire block, split at CRLF. -/
def wireLines (s : String) : List String := (splitCRLF s.data).map (fun l => ⟨l⟩)

/-- Value of a non-empty all-decimal-digit character list. -/
def decDigitsVal? (l : List Char) : Option Nat :=
  if l ≠ [] ∧ l.all Char.isDigit then
    some (l.foldl (fun a c => a * 10 + (c.toNat - 48)) 0)
  else none

/-- Python 2 `int(value)` on a string: strip surrounding whitespace,
an optional single sign, then one or more decimal digits; anything
else raises `ValueError` (modelled as `none`). -/
def pyIntParse? (s : String) : Option Int :=
  match (pyStrip s).data with
  | [] => none
  | c :: rest =>
    if c = '+' then (decDigitsVal? rest).map (fun n => (n : Int))
    else if c = '-' then (decDigitsVal? rest).map (fun n => -(n : Int))
    else (decDigitsVal? (c :: rest)).map (fun n => (n : Int))

/-- The observable state of one `HttpServerConnection` together with
its transport.  The callback fields of the Python object
(`req_body_cb`, `req_done_cb`, `_res_body_pause_cb`,
`request_handler`) are opaque call targets and are not modelled; the
transport is modelled by the sequence of strings written to it and a
closed flag. -/
structure ServerConn where
  res_state : ResState
  res_delimit : Option Delimiter
  connection_hdr : List String
  req_version : Option ℚ
  tcp_writes : List String
  tcp_closed : Bool
deriving DecidableEq, Repr

/-- `self._tcp_conn.write(s)` as a state transform. -/
def pushWrite (c : ServerConn) (s : String) : ServerConn :=
  { c with tcp_writes := c.tcp_writes ++ [s] }

/-- The header loop of `res_start` (`server.py` lines 140-149): for
each `(name, value)`, normalise the name; on `content-length`, parse
the value (a failure raises `ValueError`, modelled as `none`) and
remember the last parsed value; skip hop-by-hop names; otherwise
append `"name: value"`. -/
def procHdrs : List (String × String) → Option Int → List String →
    Option (Option Int × List String)
  | [], res_len, acc => some (res_len, acc)
  | (name, value) :: rest, res_len, acc =>
    let norm := normName name
    if norm = ("content-length") then
      match pyIntParse? value with
      | none => none
      | some n =>
        if hop_by_hop_hdrs.contains norm then procHdrs rest (some n) acc
        else procHdrs rest (some n) (acc ++ [name ++ (": ") ++ value])
    else
      if hop_by_hop_hdrs.contains norm then procHdrs rest res_len acc
      else procHdrs rest res_len (acc ++ [name ++ (": ") ++ value])

/-- The protocol-version literal `1.1` as a rational, given directly
in lowest terms. -/
def qOneDotOne : ℚ := ⟨11, 10, by decide, by decide⟩

/-- The protocol-version literal `2.0` as a rational, given directly
in lowest terms. -/
def qTwo : ℚ := ⟨2, 1, by decide, by decide⟩

/-- The Python chained comparison `2.0 > self.req_version >= 1.1`
(`server.py` line 157).  `req_version` is `None` before any request
has been parsed; in Python 2 `None` compares below every number, so
the chain is `False` then. -/
def versionChunked : Option ℚ → Bool
  | some v => decide (qOneDotOne ≤ v ∧ v < qTwo)
  | none => false

/-- `HttpServerConnection.res_start` (`server.py` lines 133-166).
Returns the state after the call and the exception that escaped, if
any: the leading `assert` leaves the state untouched, a
`Content-Length` parse failure re-raises `ValueError` before anything
is written, and on success the status line, the surviving caller
headers and the delimiter-dependent additions are written as one
CRLF-joined block ending in a blank line, the delimiter is recorded
and the phase becomes `HEADERS_DONE`. -/
def res_start (c : ServerConn) (status_code status_phrase : String)
    (res_hdrs : List (String × String)) : ServerConn × Option PyExc :=
  if c.res_state = ResState.WAITING then
    match procHdrs res_hdrs none
        [("HTTP/1.1 ") ++ status_code ++ (" ") ++ status_phrase] with
    | none => (c, some PyExc.valueError)
    | some (res_len, res_top0) =>
      let p :=
        if c.connection_hdr.contains ("close") then
          (Delimiter.CLOSE, res_top0 ++ [("Connection: close, asked_for")])
        else
          match res_len with
          | some n =>
            (Delimiter.COUNTED,
             res_top0 ++ [("Content-Length: ") ++ toString n,
                          ("Connection: keep-alive")])
          | none =>
            if versionChunked c.req_version then
              (Delimiter.CHUNKED, res_top0 ++ [("Transfer-Encoding: chunked")])
            else
              (Delimiter.CLOSE, res_top0 ++ [("Connection: close")])
      ({ c with res_state := ResState.HEADERS_DONE,
                res_delimit := some p.1,
                tcp_writes := c.tcp_writes ++
                  [String.intercalate linesep (p.2 ++ [linesep])] }, none)
  else (c, some PyExc.assertionError)

/-- Least-significant-first base-16 digits, with explicit fuel (one
unit of fuel per division step is ample since `n / 16 < n` for
positive `n`). -/
def hexRevFuel : Nat → Nat → List Char
  | 0, _ => []
  | fuel + 1, n =>
    if n = 0 then [] else Nat.digitChar (n % 16) :: hexRevFuel fuel (n / 16)

/-- Least-significant-first base-16 digits of `n` (empty for 0),
using Python's lower-case hex digit characters. -/
def hexRev (n : Nat) : List Char := hexRevFuel n n

/-- Python `hex(n)[2:]` for a non-negative `n`: hex digits without
the `0x` prefix, lower case. -/
def natToHex (n : Nat) : String :=
  if n = 0 then ("0") else String.mk (hexRev n).reverse

/-- `HttpServerConnection.res_body` (`server.py` lines 168-178):
assert `HEADERS_DONE`; an empty chunk is a no-op; under `CHUNKED` the
chunk is framed as `hex(len(chunk))[2:] ++ "\r\n" ++ chunk ++ "\r\n"`,
otherwise the chunk is written unmodified. -/
def res_body (c : ServerConn) (chunk : String) : ServerConn × Option PyExc :=
  if c.res_state = ResState.HEADERS_DONE then
    if chunk = ("") then (c, none)
    else if c.res_delimit = some Delimiter.CHUNKED then
      (pushWrite c (natToHex chunk.length ++ linesep ++ chunk ++ linesep), none)
    else (pushWrite c chunk, none)
  else (c, some PyExc.assertionError)

/-- `HttpServerConnection.res_done` (`server.py` lines 180-203):
assert `HEADERS_DONE`; the phase is set back to `WAITING` first; then
a truthy `err` closes the transport unconditionally; otherwise
`NONE`/`COUNTED` write nothing, `CHUNKED` writes the terminating
`"0\r\n\r\n"`, `CLOSE` closes the transport, and an unknown delimiter
raises `AssertionError`. -/
def res_done (c : ServerConn) (err : Option ErrDescr) : ServerConn × Option PyExc :=
  if c.res_state = ResState.HEADERS_DONE then
    let c1 := { c with res_state := ResState.WAITING }
    match err with
    | some _ => ({ c1 with tcp_closed := true }, none)
    | none =>
      match c1.res_delimit with
      | some Delimiter.NONE => (c1, none)
      | some Delimiter.CHUNKED => (pushWrite c1 ("0\r\n\r\n"), none)
      | some Delimiter.CLOSE => ({ c1 with tcp_closed := true }, none)
      | some Delimiter.COUNTED => (c1, none)
      | none => (c1, some PyExc.assertionError)
  else (c, some PyExc.assertionError)

/-- Modelled from the spec: `error.py` is not under `src/`; per
section 7 a missing mandatory `Host` header on HTTP/1.1 maps to a 4xx
response, so `ERR_HOST_REQ` carries a 400 status and a description. -/
def ERR_HOST_REQ : ErrDescr :=
  { status := some (("400"), ("Bad Request")),
    desc := ("Host header required"),
    detail := none }

/-- `HttpServerConnection._handle_error` (`server.py` lines 270-285):
assert `WAITING`; enrich the descriptor with `detail` when given;
take the status (default `400 Bad Request`), a `text/plain` content
type and a body of the description plus an optional parenthesised
detail; then run `res_start`, `res_body` and `res_done`.  The source
invokes `self.res_done()` without the mandatory `err` argument
(`server.py` line 285); in Python that call raises `TypeError` at the
call site, before `res_done`'s body runs, so it is modelled as the
state after `res_body` paired with `typeError`. -/
def handle_error (c : ServerConn) (err : ErrDescr) (detail : Option String) :
    ServerConn × Option PyExc :=
  if c.res_state = ResState.WAITING then
    let err1 := match detail with
      | some d => { err with detail := some d }
      | none => err
    let sc := (err1.status.getD (("400"), ("Bad Request"))).1
    let sp := (err1.status.getD (("400"), ("Bad Request"))).2
    let body := err1.desc ++ (match err1.detail with
      | some d => (" (") ++ d ++ (")")
      | none => (""))
    match res_start c sc sp [(("Content-Type"), ("text/plain"))] with
    | (c1, some e) => (c1, some e)
    | (c1, none) =>
      match res_body c1 body with
      | (c2, some e) => (c2, some e)
      | (c2, none) => (c2, some PyExc.typeError)
  else (c, some PyExc.assertionError)

/-- `allows_body` from `HttpServerConnection._input_start`
(`server.py` lines 251-252): the Python expression
`(content_length) or (transfer_codes != [])`, whose truth value is
taken.  Modelled from the spec for the parser side: `common.py`
(absent from `src/`) delivers `content-length` as the parsed value
when the header is present and as `None` otherwise (section 6), so
`content_length` of `0` is falsy. -/
def allows_body (content_length : Option Nat) (transfer_codes : List String) : Bool :=
  (match content_length with
   | none => false
   | some n => n != 0) || !transfer_codes.isEmpty

/-- `HttpServerConnection._input_start` (`server.py` lines 228-252)
after a successful request-line parse delivering `req_version` (the
raw splitting of `top_line` and the parser's own input-state assert
are outside the property under study): record the version; on
version exactly 1.1 with no `host` header (names stripped and
lower-cased) call `_handle_error ERR_HOST_REQ` and then raise
`ValueError` — an exception escaping `_handle_error` itself
propagates first; otherwise record the connection tokens and return
`allows_body` (the handler invocation touches none of the modelled
state).  The third component is the value returned to the parser. -/
def input_start (c : ServerConn) (req_version : ℚ)
    (hdr_tuples : List (String × String)) (conn_tokens : List String)
    (transfer_codes : List String) (content_length : Option Nat) :
    ServerConn × Option PyExc × Option Bool :=
  let c0 := { c with req_version := some req_version }
  if req_version = qOneDotOne ∧ (∀ p ∈ hdr_tuples, normName p.1 ≠ ("host")) then
    match handle_error c0 ERR_HOST_REQ none with
    | (c1, some e) => (c1, some e, none)
    | (c1, none) => (c1, some PyExc.valueError, none)
  else
    let c1 := { c0 with connection_hdr := conn_tokens }
    (c1, none, some (allows_body content_length transfer_codes))

/-- Hex digit value of a character for the reference decoder;
lower-case and upper-case digits are accepted. -/
def hexDigitVal? (c : Char) : Option Nat :=
  let n := c.toNat
  if 48 ≤ n ∧ n ≤ 57 then some (n - 48)
  else if 97 ≤ n ∧ n ≤ 102 then some (n - 87)
  else if 65 ≤ n ∧ n ≤ 70 then some (n - 55)
  else none

/-- Greedy hex-number reader of the reference decoder: consume hex
digits, accumulating their value onto `acc`, and stop at the first
non-hex character. -/
def readHexAux : Nat → List Char → Nat × List Char
  | acc, [] => (acc, [])
  | acc, c :: rest =>
    match hexDigitVal? c with
    | some d => readHexAux (acc * 16 + d) rest
    | none => (acc, c :: rest)

/-- Reference chunked-transfer decoder for one chunk, written to the
wire grammar of the spec (section 6): one or more hex size digits,
CRLF, that many bytes, CRLF; returns the chunk bytes and the
remaining input. -/
def decodeChunk (s : List Char) : Option (List Char × List Char) :=
  match s with
  | [] => none
  | c :: rest =>
    match hexDigitVal? c with
    | none => none
    | some d =>
      match readHexAux d rest with
      | (n, rest1) =>
        match rest1 with
        | '\r' :: '\n' :: rest2 =>
          (match rest2.drop n with
           | '\r' :: '\n' :: tail => some (rest2.take n, tail)
           | _ => none)
        | _ => none

/-- The header lines of `res_start`'s loop that survive hop-by-hop
stripping, rendered as `"name: value"`. -/
def keptLines (hdrs : List (String × String)) : List String :=
  (hdrs.filter (fun p => !hop_by_hop_hdrs.contains (normName p.1))).map
    (fun p => p.1 ++ (": ") ++ p.2)

/-- The final value of `res_len` after `res_start`'s header loop:
the last `Content-Length` header's parsed value. -/
def resLenOf (hdrs : List (String × String)) : Option Int :=
  hdrs.foldl
    (fun l p => if normName p.1 = ("content-length") then pyIntParse? p.2 else l)
    none

/-- Every `Content-Length` header in the list parses as an integer
(so `res_start`'s loop raises no `ValueError`). -/
abbrev CLok (hdrs : List (String × String)) : Prop :=
  ∀ p ∈ hdrs, normName p.1 = ("content-length") → (pyIntParse? p.2).isSome

/-- A freshly constructed connection
(`HttpServerConnection.__init__`). -/
def freshConn : ServerConn :=
  { res_state := ResState.WAITING
    res_delimit := none
    connection_hdr := []
    req_version := none
    tcp_writes := []
    tcp_closed := false }

/-- A connection that has parsed an HTTP/1.1 request with no `close`
token and has not started its response. -/
def connV11 : ServerConn := { freshConn with req_version := some qOneDotOne }

/-- `connV11` after a request carrying the `close` connection token. -/
def connClose : ServerConn := { connV11 with connection_hdr := [("close")] }

/-- `connV11` with an open chunked response. -/
def connChunkedOpen : ServerConn :=
  { connV11 with res_state := ResState.HEADERS_DONE, res_delimit := some Delimiter.CHUNKED }

/-- `connV11` with an open close-delimited response. -/
def connCloseOpen : ServerConn :=
  { connV11 with res_state := ResState.HEADERS_DONE, res_delimit := some Delimiter.CLOSE }

/-- One step of hex-value accumulation, as performed by the reference
decoder. -/
def hexAccum (a : Nat) (c : Char) : Nat := a * 16 + (hexDigitVal? c).getD 0

theorem hexDigit_digitChar : ∀ d < 16, hexDigitVal? (Nat.digitChar d) = some d := by decide

theorem hexRevFuel_congr :
    ∀ f1 f2 n : Nat, n ≤ f1 → n ≤ f2 → hexRevFuel f1 n = hexRevFuel f2 n := by
  intro f1
  induction f1 with
  | zero =>
    intro f2 n h1 _
    have hn : n = 0 := Nat.le_zero.mp h1
    subst hn
    cases f2 <;> simp [hexRevFuel]
  | succ m ih =>
    intro f2 n h1 h2
    by_cases hn : n = 0
    · subst hn
      cases f2 <;> simp [hexRevFuel]
    · obtain ⟨t, rfl⟩ : ∃ t, f2 = t + 1 := ⟨f2 - 1, by omega⟩
      have hdiv : n / 16 < n := Nat.div_lt_self (Nat.pos_of_ne_zero hn) (by norm_num)
      simp only [hexRevFuel, if_neg hn]
      exact congrArg _ (ih t (n / 16) (by omega) (by omega))

theorem hexRev_succ (n : Nat) (hn : n ≠ 0) :
    hexRev n = Nat.digitChar (n % 16) :: hexRev (n / 16) := by
  obtain ⟨m, rfl⟩ : ∃ m, n = m + 1 := ⟨n - 1, by omega⟩
  have hdiv : (m + 1) / 16 < m + 1 := Nat.div_lt_self (by omega) (by norm_num)
  show hexRevFuel (m + 1) (m + 1) = _
  simp only [hexRevFuel, if_neg hn]
  exact congrArg _ (hexRevFuel_congr m ((m + 1) / 16) ((m + 1) / 16) (by omega) le_rfl)

theorem hexRev_all_hex :
    ∀ n, ∀ c ∈ hexRev n, (hexDigitVal? c).isSome := by
  intro n
  induction n using Nat.strong_induction_on with
  | _ n ih =>
    by_cases hn : n = 0
    · subst hn
      intro c hc
      simp [hexRev, hexRevFuel] at hc
    · rw [hexRev_succ n hn]
      intro c hc
      rcases List.mem_cons.1 hc with h | h
      · subst h
        rw [hexDigit_digitChar (n % 16) (Nat.mod_lt _ (by norm_num))]
        rfl
      · exact ih (n / 16) (Nat.div_lt_self (Nat.pos_of_ne_zero hn) (by norm_num)) c h

theorem foldl_hexRev (n : Nat) :
    ∀ acc : Nat, ((hexRev n).reverse).foldl hexAccum acc = acc * 16 ^ (hexRev n).length + n := by
  induction n using Nat.strong_induction_on with
  | _ n ih =>
    intro acc
    by_cases hn : n = 0
    · subst hn
      simp [hexRev, hexRevFuel]
    · rw [hexRev_succ n hn, List.reverse_cons, List.foldl_append,
        ih (n / 16) (Nat.div_lt_self (Nat.pos_of_ne_zero hn) (by norm_num)) acc]
      have hmod := Nat.div_add_mod n 16
      have hdig := hexDigit_digitChar (n % 16) (Nat.mod_lt _ (by norm_num))
      simp only [List.foldl_cons, List.foldl_nil, hexAccum, hdig, Option.getD_some,
        List.length_cons]
      calc (acc * 16 ^ (hexRev (n / 16)).length + n / 16) * 16 + n % 16
          = acc * (16 ^ (hexRev (n / 16)).length * 16) + (16 * (n / 16) + n % 16) := by ring
        _ = acc * 16 ^ ((hexRev (n / 16)).length + 1) + n := by rw [hmod, pow_succ]

theorem readHexAux_stop (acc : Nat) (c : Char) (r : List Char)
    (hc : hexDigitVal? c = none) : readHexAux acc (c :: r) = (acc, c :: r) := by
  simp [readHexAux, hc]

theorem readHexAux_append (l : List Char) :
    ∀ (acc : Nat) (r : List Char), (∀ c ∈ l, (hexDigitVal? c).isSome) →
    readHexAux acc (l ++ r) = readHexAux (l.foldl hexAccum acc) r := by
  induction l with
  | nil =>
    intro acc r _
    simp
  | cons c t ih =>
    intro acc r hall
    obtain ⟨d, hd⟩ := Option.isSome_iff_exists.1 (hall c (List.mem_cons_self c t))
    have h1 : readHexAux acc ((c :: t) ++ r) = readHexAux (acc * 16 + d) (t ++ r) := by
      simp [readHexAux, hd]
    have h2 : hexAccum acc c = acc * 16 + d := by
      simp [hexAccum, hd]
    rw [h1, ih (acc * 16 + d) r (fun x hx => hall x (List.mem_cons_of_mem c hx)),
      List.foldl_cons, h2]

theorem decode_encode (data : List Char) (h : data ≠ []) :
    decodeChunk ((hexRev data.length).reverse ++ '\r' :: '\n' :: (data ++ ['\r', '\n'])) =
      some (data, []) := by
  have hn : data.length ≠ 0 := fun hc => h (List.length_eq_zero.mp hc)
  cases hrev : (hexRev data.length).reverse with
  | nil =>
    have : hexRev data.length = [] := List.reverse_eq_nil_iff.mp hrev
    rw [hexRev_succ _ hn] at this
    exact absurd this (by simp)
  | cons c0 ds =>
    have hmem : ∀ c ∈ c0 :: ds, (hexDigitVal? c).isSome := by
      intro c hc
      exact hexRev_all_hex data.length c (List.mem_reverse.1 (hrev ▸ hc))
    obtain ⟨d0, hd0⟩ := Option.isSome_iff_exists.1 (hmem c0 (List.mem_cons_self _ _))
    have hv : ds.foldl hexAccum d0 = data.length := by
      have h0 := foldl_hexRev data.length 0
      rw [hrev] at h0
      simp only [List.foldl_cons] at h0
      have hstep : hexAccum 0 c0 = d0 := by simp [hexAccum, hd0]
      rw [hstep] at h0
      simpa using h0
    have hEq : readHexAux d0 (ds ++ '\r' :: '\n' :: (data ++ ['\r', '\n'])) =
        (data.length, '\r' :: '\n' :: (data ++ ['\r', '\n'])) := by
      rw [readHexAux_append ds d0 _ (fun x hx => hmem x (List.mem_cons_of_mem c0 hx)),
        readHexAux_stop _ _ _ (by decide), hv]
    simp only [List.cons_append, decodeChunk, hd0, hEq, List.drop_left, List.take_left]

theorem procHdrs_err :
    ∀ (hdrs : List (String × String)) (len : Option Int) (acc : List String),
    (∃ p ∈ hdrs, normName p.1 = ("content-length") ∧ pyIntParse? p.2 = none) →
    procHdrs hdrs len acc = none := by
  intro hdrs
  induction hdrs with
  | nil =>
    intro len acc h
    simp at h
  | cons q t ih =>
    intro len acc h
    obtain ⟨name, value⟩ := q
    by_cases hcl : normName name = ("content-length")
    · cases hp : pyIntParse? value with
      | none => simp [procHdrs, hcl, hp]
      | some n =>
        have ht : ∃ p ∈ t, normName p.1 = ("content-length") ∧ pyIntParse? p.2 = none := by
          rcases h with ⟨p, hpmem, h1, h2⟩
          rcases List.mem_cons.1 hpmem with rfl | hm
          · rw [hp] at h2
            exact absurd h2 (by simp)
          · exact ⟨p, hm, h1, h2⟩
        simp only [procHdrs, hcl, hp, if_true, if_pos]
        split <;> exact ih _ _ ht
    · have ht : ∃ p ∈ t, normName p.1 = ("content-length") ∧ pyIntParse? p.2 = none := by
        rcases h with ⟨p, hpmem, h1, h2⟩
        rcases List.mem_cons.1 hpmem with rfl | hm
        · exact absurd h1 hcl
        · exact ⟨p, hm, h1, h2⟩
      simp only [procHdrs, hcl, if_neg, if_false]
      split <;> exact ih _ _ ht

theorem procHdrs_ok :
    ∀ (hdrs : List (String × String)) (len : Option Int) (acc : List String), CLok hdrs →
    procHdrs hdrs len acc =
      some (hdrs.foldl
              (fun l p => if normName p.1 = ("content-length") then pyIntParse? p.2 else l) len,
            acc ++ keptLines hdrs) := by
  intro hdrs
  induction hdrs with
  | nil =>
    intro len acc _
    simp [procHdrs, keptLines]
  | cons q t ih =>
    intro len acc hok
    obtain ⟨name, value⟩ := q
    have hok_t : CLok t := fun p hp hcl => hok p (List.mem_cons_of_mem _ hp) hcl
    by_cases hcl : normName name = ("content-length")
    · obtain ⟨n, hn⟩ :=
        Option.isSome_iff_exists.1 (hok (name, value) (List.mem_cons_self _ _) hcl)
      have hmemcl : ("content-length") ∉ hop_by_hop_hdrs := by decide
      simp [procHdrs, hcl, hn, hmemcl, ih _ _ hok_t, keptLines, List.filter_cons,
        List.append_assoc]
    · by_cases hh : normName name ∈ hop_by_hop_hdrs
      · simp [procHdrs, hcl, hh, ih _ _ hok_t, keptLines, List.filter_cons]
      · simp [procHdrs, hcl, hh, ih _ _ hok_t, keptLines, List.filter_cons,
          List.append_assoc]

theorem procHdrs_ok_none (hdrs : List (String × String)) (acc : List String)
    (hok : CLok hdrs) :
    procHdrs hdrs none acc = some (resLenOf hdrs, acc ++ keptLines hdrs) :=
  procHdrs_ok hdrs none acc hok

theorem res_start_err (c : ServerConn) (sc sp : String) (hdrs : List (String × String))
    (hW : c.res_state = ResState.WAITING)
    (hbad : ∃ p ∈ hdrs, normName p.1 = ("content-length") ∧ pyIntParse? p.2 = none) :
    res_start c sc sp hdrs = (c, some PyExc.valueError) := by
  simp [res_start, hW, procHdrs_err hdrs none _ hbad]

theorem res_start_ok (c : ServerConn) (sc sp : String) (hdrs : List (String × String))
    (hW : c.res_state = ResState.WAITING) (hok : CLok hdrs) :
    res_start c sc sp hdrs =
      ({ c with
          res_state := ResState.HEADERS_DONE
          res_delimit := some
            (if c.connection_hdr.contains ("close") then Delimiter.CLOSE
             else match resLenOf hdrs with
               | some _ => Delimiter.COUNTED
               | none =>
                 if versionChunked c.req_version then Delimiter.CHUNKED else Delimiter.CLOSE)
          tcp_writes := c.tcp_writes ++
            [String.intercalate linesep
              (((("HTTP/1.1 ") ++ sc ++ (" ") ++ sp) :: keptLines hdrs) ++
               (if c.connection_hdr.contains ("close") then [("Connection: close, asked_for")]
                else match resLenOf hdrs with
                  | some n => [("Content-Length: ") ++ toString n, ("Connection: keep-alive")]
                  | none =>
                    if versionChunked c.req_version then [("Transfer-Encoding: chunked")]
                    else [("Connection: close")]) ++ [linesep])] }, none) := by
  have hproc := procHdrs_ok_none hdrs [("HTTP/1.1 ") ++ sc ++ (" ") ++ sp] hok
  by_cases hclose : ("close") ∈ c.connection_hdr
  · simp [res_start, hW, hproc, hclose]
  · cases hlen : resLenOf hdrs with
    | some n => simp [res_start, hW, hproc, hclose, hlen]
    | none =>
      by_cases hv : versionChunked c.req_version
      · simp [res_start, hW, hproc, hclose, hlen, hv]
      · simp [res_start, hW, hproc, hclose, hlen, hv]

theorem resLenOf_no_cl (hdrs : List (String × String))
    (h : ∀ p ∈ hdrs, normName p.1 ≠ ("content-length")) : resLenOf hdrs = none := by
  induction hdrs with
  | nil => rfl
  | cons q t ih =>
    have hq := h q (List.mem_cons_self _ _)
    have : resLenOf (q :: t) = resLenOf t := by
      simp [resLenOf, List.foldl_cons, hq]
    rw [this]
    exact ih (fun p hp => h p (List.mem_cons_of_mem _ hp))

theorem foldCL_isSome (hdrs : List (String × String)) :
    ∀ init : Option Int, CLok hdrs →
    ((∃ p ∈ hdrs, normName p.1 = ("content-length")) ∨ init.isSome) →
    (hdrs.foldl
      (fun l p => if normName p.1 = ("content-length") then pyIntParse? p.2 else l)
      init).isSome := by
  induction hdrs with
  | nil =>
    intro init _ hd
    rcases hd with ⟨p, hp, _⟩ | hi
    · simp at hp
    · simpa using hi
  | cons q t ih =>
    intro init hok hd
    have hok_t : CLok t := fun p hp hcl => hok p (List.mem_cons_of_mem _ hp) hcl
    by_cases hq : normName q.1 = ("content-length")
    · have hs : (pyIntParse? q.2).isSome := hok q (List.mem_cons_self _ _) hq
      simp only [List.foldl_cons, if_pos hq]
      exact ih _ hok_t (Or.inr hs)
    · simp only [List.foldl_cons, if_neg hq]
      rcases hd with ⟨p, hp, hcl⟩ | hi
      · rcases List.mem_cons.1 hp with rfl | hm
        · exact absurd hcl hq
        · exact ih _ hok_t (Or.inl ⟨p, hm, hcl⟩)
      · exact ih _ hok_t (Or.inr hi)

theorem resLenOf_isSome_iff (hdrs : List (String × String)) (hok : CLok hdrs) :
    (resLenOf hdrs).isSome ↔ ∃ p ∈ hdrs, normName p.1 = ("content-length") := by
  constructor
  · intro h
    by_contra hn
    push_neg at hn
    rw [resLenOf_no_cl hdrs hn] at h
    simp at h
  · intro h
    exact foldCL_isSome hdrs none hok (Or.inl h)

/-- Claim C1 (counterexample): with no `close` token, protocol version
1.1 and the single header `Content-Length: -5` — a value that parses
as an integer but not as a non-negative one — the claim's priority
order demands the Chunked delimiter with `Transfer-Encoding: chunked`
added; the code instead selects Counted and emits the negative
Content-Length, refuting the claim as stated. -/
theorem claim_C1_counterexample :
    res_start connV11 ("200") ("OK") [(("Content-Length"), ("-5"))] =
      ({ connV11 with
          res_state := ResState.HEADERS_DONE
          res_delimit := some Delimiter.COUNTED
          tcp_writes :=
            [("HTTP/1.1 200 OK\r\nContent-Length: -5\r\nContent-Length: -5\r\nConnection: keep-alive\r\n\r\n")] },
       none) ∧
    (res_start connV11 ("200") ("OK") [(("Content-Length"), ("-5"))]).1.res_delimit ≠
      some Delimiter.CHUNKED := by
  decide

/-- Claim C1 (amended: a `Content-Length` value that parses as any
integer — negative included — already selects Counted): for every
`res_start` call in phase WAITING whose Content-Length values all
parse as integers, the call succeeds and the delimiter follows the
priority order: `close` token → Close; a parsed Content-Length →
Counted; version in [1.1, 2.0) → Chunked with
`Transfer-Encoding: chunked` added; otherwise Close with
`Connection: close` added — and the rendered block is exactly the
status line, the surviving caller headers, the branch's additions and
the terminating blank line. -/
theorem claim_C1 (c : ServerConn) (sc sp : String) (hdrs : List (String × String))
    (hW : c.res_state = ResState.WAITING) (hok : CLok hdrs) :
    res_start c sc sp hdrs =
      ({ c with
          res_state := ResState.HEADERS_DONE
          res_delimit := some
            (if c.connection_hdr.contains ("close") then Delimiter.CLOSE
             else match resLenOf hdrs with
               | some _ => Delimiter.COUNTED
               | none =>
                 if versionChunked c.req_version then Delimiter.CHUNKED else Delimiter.CLOSE)
          tcp_writes := c.tcp_writes ++
            [String.intercalate linesep
              (((("HTTP/1.1 ") ++ sc ++ (" ") ++ sp) :: keptLines hdrs) ++
               (if c.connection_hdr.contains ("close") then [("Connection: close, asked_for")]
                else match resLenOf hdrs with
                  | some n => [("Content-Length: ") ++ toString n, ("Connection: keep-alive")]
                  | none =>
                    if versionChunked c.req_version then [("Transfer-Encoding: chunked")]
                    else [("Connection: close")]) ++ [linesep])] }, none) :=
  res_start_ok c sc sp hdrs hW hok

/-- Witness for C1 at a concrete input: a parsed `Content-Length: 7`
selects Counted. -/
theorem claim_C1_witness :
    res_start connV11 ("200") ("OK") [(("Content-Length"), ("7"))] =
      ({ connV11 with
          res_state := ResState.HEADERS_DONE
          res_delimit := some Delimiter.COUNTED
          tcp_writes :=
            [("HTTP/1.1 200 OK\r\nContent-Length: 7\r\nContent-Length: 7\r\nConnection: keep-alive\r\n\r\n")] },
       none) := by
  have h := claim_C1 connV11 ("200") ("OK") [(("Content-Length"), ("7"))] rfl (by decide)
  exact h.trans (by decide)

/-- Claim C2: `res_start` called while a response is already open
(phase `HEADERS_DONE`) fails with the assertion fault and the
connection state is returned unchanged. -/
theorem claim_C2 (c : ServerConn) (sc sp : String) (hdrs : List (String × String))
    (h : c.res_state = ResState.HEADERS_DONE) :
    res_start c sc sp hdrs = (c, some PyExc.assertionError) := by
  simp [res_start, h]

/-- Witness for C2 at a concrete input: a second `res_start` on an
open chunked response is rejected. -/
theorem claim_C2_witness :
    res_start connChunkedOpen ("200") ("OK") [] =
      (connChunkedOpen, some PyExc.assertionError) :=
  claim_C2 connChunkedOpen ("200") ("OK") [] rfl

/-- Claim C3: under the Chunked delimiter a non-empty chunk is
written as exactly the lower-case hex length (no `0x` prefix), CRLF,
the chunk bytes, CRLF, and the reference chunked decoder applied to
that rendering recovers exactly the original chunk bytes. -/
theorem claim_C3 (c : ServerConn) (chunk : String)
    (h1 : c.res_state = ResState.HEADERS_DONE)
    (h2 : c.res_delimit = some Delimiter.CHUNKED)
    (h3 : chunk ≠ ("")) :
    res_body c chunk =
      (pushWrite c (natToHex chunk.length ++ linesep ++ chunk ++ linesep), none) ∧
    decodeChunk (natToHex chunk.length ++ linesep ++ chunk ++ linesep).data =
      some (chunk.data, []) := by
  have hd : chunk.data ≠ [] := by
    intro hc
    apply h3
    cases chunk with
    | mk l =>
      simp only at hc
      rw [hc]
  constructor
  · simp [res_body, h1, h2, h3]
  · have hn : chunk.data.length ≠ 0 := fun hc => hd (List.length_eq_zero.mp hc)
    have hhex : (natToHex chunk.length).data = (hexRev chunk.data.length).reverse := by
      show (natToHex chunk.data.length).data = _
      rw [natToHex, if_neg hn]
    have hls : linesep.data = ['\r', '\n'] := rfl
    have hdata : (natToHex chunk.length ++ linesep ++ chunk ++ linesep).data =
        (hexRev chunk.data.length).reverse ++ '\r' :: '\n' :: (chunk.data ++ ['\r', '\n']) := by
      simp [String.data_append, hhex, hls, List.append_assoc]
    rw [hdata]
    exact decode_encode chunk.data hd

/-- Witness for C3 at a concrete input: the 4-byte chunk `abcd`
renders as `4\r\nabcd\r\n` and decodes back to `abcd`. -/
theorem claim_C3_witness :
    res_body connChunkedOpen ("abcd") =
      (pushWrite connChunkedOpen
        (natToHex (String.length ("abcd")) ++ linesep ++ ("abcd") ++ linesep), none) ∧
    decodeChunk (natToHex (String.length ("abcd")) ++ linesep ++ ("abcd") ++ linesep).data =
      some (String.data ("abcd"), []) ∧
    natToHex (String.length ("abcd")) ++ linesep ++ ("abcd") ++ linesep = ("4\r\nabcd\r\n") := by
  have h := claim_C3 connChunkedOpen ("abcd") rfl rfl (by decide)
  exact ⟨h.1, h.2, by decide⟩

/-- Claim C4 (counterexample): finishing a Close-delimited response
without error closes the transport, yet the response phase is reset
to WAITING all the same, so the claim's exception clause ("except
when the connection was closed") does not hold on the code. -/
theorem claim_C4_counterexample :
    res_done connCloseOpen none =
      ({ connCloseOpen with res_state := ResState.WAITING, tcp_closed := true }, none) ∧
    (res_done connCloseOpen none).1.res_state = ResState.WAITING ∧
    (res_done connCloseOpen none).1.tcp_closed = true := by
  decide

/-- Claim C4 (amended: the phase is reset to WAITING in every case,
also when the connection was closed): `res_done` in phase
`HEADERS_DONE` closes the transport whenever the error argument is
set, regardless of delimiter; without error, Chunked writes the
terminating `0\r\n\r\n`, Close closes the transport, Counted and None
write nothing; and the phase is set back to WAITING unconditionally. -/
theorem claim_C4 (c : ServerConn) (d : Delimiter) (err : Option ErrDescr)
    (h1 : c.res_state = ResState.HEADERS_DONE) (h2 : c.res_delimit = some d) :
    res_done c err =
      ({ c with
          res_state := ResState.WAITING
          tcp_writes := c.tcp_writes ++
            (if err.isNone ∧ d = Delimiter.CHUNKED then [("0\r\n\r\n")] else [])
          tcp_closed := if err.isSome ∨ d = Delimiter.CLOSE then true else c.tcp_closed },
       none) := by
  cases err with
  | some e => simp [res_done, h1, h2]
  | none => cases d <;> simp [res_done, h1, h2, pushWrite]

/-- Witness for C4 at a concrete input: finishing an error-free
chunked response writes the terminator and resets the phase. -/
theorem claim_C4_witness :
    res_done connChunkedOpen none =
      ({ connChunkedOpen with
          res_state := ResState.WAITING
          tcp_writes := [("0\r\n\r\n")] }, none) := by
  have h := claim_C4 connChunkedOpen Delimiter.CHUNKED none rfl rfl
  exact h.trans (by decide)

/-- Claim C5 (code bug, evaluated at the failing input): an HTTP/1.1
request with no `Host` header triggers `_handle_error ERR_HOST_REQ`,
which writes the error status line, the headers and the chunked body
chunk, but then invokes `res_done` without its mandatory `err`
argument (`server.py` line 285: `self.res_done()`), raising
`TypeError` at the call — so the chunked terminator `0\r\n\r\n` is
never written, the phase is stuck at `HEADERS_DONE`, and the full
start/body/done sequence required by the claim never completes. -/
theorem claim_C5_bug :
    input_start freshConn qOneDotOne [(("Content-Type"), ("text/plain"))] [] [] none =
      ({ res_state := ResState.HEADERS_DONE
         res_delimit := some Delimiter.CHUNKED
         connection_hdr := []
         req_version := some qOneDotOne
         tcp_writes :=
           [("HTTP/1.1 400 Bad Request\r\nContent-Type: text/plain\r\nTransfer-Encoding: chunked\r\n\r\n"),
            ("14\r\nHost header required\r\n")]
         tcp_closed := false }, some PyExc.typeError, none) ∧
    ("0\r\n\r\n") ∉
      (input_start freshConn qOneDotOne [(("Content-Type"), ("text/plain"))] [] [] none).1.tcp_writes := by
  decide

/-- Claim C6 (counterexample): with the single header
`Content-Length: 4` the rendered block carries the line
`Content-Length: 4` twice — once echoed from the forwarded list and
once re-appended in normalised form — refuting "exactly once". -/
theorem claim_C6_counterexample :
    res_start connV11 ("200") ("OK") [(("Content-Length"), ("4"))] =
      ({ connV11 with
          res_state := ResState.HEADERS_DONE
          res_delimit := some Delimiter.COUNTED
          tcp_writes :=
            [("HTTP/1.1 200 OK\r\nContent-Length: 4\r\nContent-Length: 4\r\nConnection: keep-alive\r\n\r\n")] },
       none) ∧
    (wireLines
      (("HTTP/1.1 200 OK\r\nContent-Length: 4\r\nContent-Length: 4\r\nConnection: keep-alive\r\n\r\n"))).count
        (("Content-Length: 4")) = 2 := by
  decide

/-- Claim C6 (amended: the exact Content-Length header line is echoed
once from the forwarded caller list and a second, normalised
`Content-Length` line is appended together with
`Connection: keep-alive`, so the header appears twice rather than
exactly once): with no `close` token and a parsed Content-Length `n`,
`res_start` selects Counted and renders exactly the status line, the
surviving caller headers (the Content-Length lines verbatim among
them), `Content-Length: n`, `Connection: keep-alive` and the blank
line. -/
theorem claim_C6 (c : ServerConn) (sc sp : String) (hdrs : List (String × String)) (n : Int)
    (hW : c.res_state = ResState.WAITING) (hok : CLok hdrs)
    (hnc : ("close") ∉ c.connection_hdr) (hn : resLenOf hdrs = some n) :
    res_start c sc sp hdrs =
      ({ c with
          res_state := ResState.HEADERS_DONE
          res_delimit := some Delimiter.COUNTED
          tcp_writes := c.tcp_writes ++
            [String.intercalate linesep
              (((("HTTP/1.1 ") ++ sc ++ (" ") ++ sp) :: keptLines hdrs) ++
               [("Content-Length: ") ++ toString n, ("Connection: keep-alive")] ++
               [linesep])] }, none) ∧
    ∀ p ∈ hdrs, normName p.1 = ("content-length") →
      (p.1 ++ (": ") ++ p.2) ∈ keptLines hdrs := by
  constructor
  · have h := res_start_ok c sc sp hdrs hW hok
    rw [h]
    simp [hnc, hn]
  · intro p hp hcl
    have hnothop : (!hop_by_hop_hdrs.contains (normName p.1)) = true := by
      rw [hcl]
      decide
    exact List.mem_map_of_mem _ (List.mem_filter.2 ⟨hp, hnothop⟩)

/-- Witness for C6 at a concrete input: `Content-Length: 42` selects
Counted, the echoed line is among the kept header lines, and the
block carries the Content-Length twice. -/
theorem claim_C6_witness :
    res_start connV11 ("200") ("OK") [(("Content-Length"), ("42"))] =
      ({ connV11 with
          res_state := ResState.HEADERS_DONE
          res_delimit := some Delimiter.COUNTED
          tcp_writes :=
            [("HTTP/1.1 200 OK\r\nContent-Length: 42\r\nContent-Length: 42\r\nConnection: keep-alive\r\n\r\n")] },
       none) ∧
    (("Content-Length") ++ (": ") ++ ("42")) ∈ keptLines [(("Content-Length"), ("42"))] := by
  have h := claim_C6 connV11 ("200") ("OK") [(("Content-Length"), ("42"))] 42 rfl
    (by decide) (by decide) (by decide)
  exact ⟨h.1.trans (by decide),
    h.2 (("Content-Length"), ("42")) (List.mem_cons_self _ _) (by decide)⟩

/-- Claim C7 (counterexample): with the `close` token present the
rendered block contains the line `Connection: close, asked_for` and
no line `Connection: close`, refuting the claim's exact header. -/
theorem claim_C7_counterexample :
    res_start connClose ("200") ("OK") [] =
      ({ connClose with
          res_state := ResState.HEADERS_DONE
          res_delimit := some Delimiter.CLOSE
          tcp_writes := [("HTTP/1.1 200 OK\r\nConnection: close, asked_for\r\n\r\n")] },
       none) ∧
    (wireLines (("HTTP/1.1 200 OK\r\nConnection: close, asked_for\r\n\r\n"))).count
      (("Connection: close")) = 0 ∧
    (wireLines (("HTTP/1.1 200 OK\r\nConnection: close, asked_for\r\n\r\n"))).count
      (("Connection: close, asked_for")) = 1 := by
  decide

/-- Claim C7 (amended: the header line added on the `close`-token
branch is `Connection: close, asked_for`): whenever the request's
connection tokens contain `close`, `res_start` selects the Close
delimiter and renders exactly the status line, the surviving caller
headers, the single added line `Connection: close, asked_for` and the
blank line. -/
theorem claim_C7 (c : ServerConn) (sc sp : String) (hdrs : List (String × String))
    (hW : c.res_state = ResState.WAITING) (hok : CLok hdrs)
    (hcl : ("close") ∈ c.connection_hdr) :
    res_start c sc sp hdrs =
      ({ c with
          res_state := ResState.HEADERS_DONE
          res_delimit := some Delimiter.CLOSE
          tcp_writes := c.tcp_writes ++
            [String.intercalate linesep
              (((("HTTP/1.1 ") ++ sc ++ (" ") ++ sp) :: keptLines hdrs) ++
               [("Connection: close, asked_for")] ++ [linesep])] }, none) := by
  have h := res_start_ok c sc sp hdrs hW hok
  rw [h]
  simp [hcl]

/-- Witness for C7 at a concrete input. -/
theorem claim_C7_witness :
    res_start connClose ("500") ("Oops") [] =
      ({ connClose with
          res_state := ResState.HEADERS_DONE
          res_delimit := some Delimiter.CLOSE
          tcp_writes := [("HTTP/1.1 500 Oops\r\nConnection: close, asked_for\r\n\r\n")] },
       none) := by
  have h := claim_C7 connClose ("500") ("Oops") [] rfl (by decide) (by decide)
  exact h.trans (by decide)

/-- Claim C8: a Content-Length value that does not parse as an
integer makes `res_start` fail with the propagated `ValueError`
instead of silently falling through to another delimiter. -/
theorem claim_C8 (c : ServerConn) (sc sp : String) (hdrs : List (String × String))
    (hW : c.res_state = ResState.WAITING)
    (hbad : ∃ p ∈ hdrs, normName p.1 = ("content-length") ∧ pyIntParse? p.2 = none) :
    res_start c sc sp hdrs = (c, some PyExc.valueError) :=
  res_start_err c sc sp hdrs hW hbad

/-- Witness for C8 at a concrete input: `Content-Length: abc`. -/
theorem claim_C8_witness :
    res_start connV11 ("200") ("OK") [(("Content-Length"), ("abc"))] =
      (connV11, some PyExc.valueError) :=
  claim_C8 connV11 ("200") ("OK") [(("Content-Length"), ("abc"))] rfl (by decide)

/-- Claim C9 (counterexample): with `Content-Length: 0` delivered by
the parser (the value is present) and no transfer codings, the code
returns false — Python's truthiness of the integer 0 — while the
claim requires true. -/
theorem claim_C9_counterexample :
    allows_body (some 0) [] = false ∧ (some 0 : Option Nat) ≠ none := by
  decide

/-- Claim C9 (amended: "present with a non-zero value"): the value
returned to the parser is true iff the delivered content-length is
present and non-zero, or the transfer-coding list is non-empty. -/
theorem claim_C9 (cl : Option Nat) (tc : List String) :
    allows_body cl tc = true ↔ ((∃ n, cl = some n ∧ n ≠ 0) ∨ tc ≠ []) := by
  cases cl with
  | none => simp [allows_body]
  | some n => simp [allows_body]

/-- Claim C10: a bad Content-Length makes `res_start` raise before
any write, leaving the state — in particular the WAITING phase —
untouched, and a subsequent `res_start` with parseable headers on the
same connection is accepted. -/
theorem claim_C10 (c : ServerConn) (sc sp : String) (hdrs : List (String × String))
    (hW : c.res_state = ResState.WAITING)
    (hbad : ∃ p ∈ hdrs, normName p.1 = ("content-length") ∧ pyIntParse? p.2 = none) :
    (res_start c sc sp hdrs).1 = c ∧
    (res_start c sc sp hdrs).2 = some PyExc.valueError ∧
    ∀ (sc2 sp2 : String) (hdrs2 : List (String × String)), CLok hdrs2 →
      (res_start c sc2 sp2 hdrs2).2 = none ∧
      (res_start c sc2 sp2 hdrs2).1.res_state = ResState.HEADERS_DONE := by
  have he := res_start_err c sc sp hdrs hW hbad
  refine ⟨by rw [he], by rw [he], ?_⟩
  intro sc2 sp2 hdrs2 hok2
  rw [res_start_ok c sc2 sp2 hdrs2 hW hok2]
  exact ⟨rfl, rfl⟩

/-- Witness for C10 at a concrete input: `Content-Length: 4x` fails,
the state is unchanged, and a plain retry succeeds. -/
theorem claim_C10_witness :
    (res_start connV11 ("200") ("OK") [(("Content-Length"), ("4x"))]).1 = connV11 ∧
    (res_start connV11 ("200") ("OK") [(("Content-Length"), ("4x"))]).2 =
      some PyExc.valueError ∧
    (res_start connV11 ("501") ("NI") []).2 = none ∧
    (res_start connV11 ("501") ("NI") []).1.res_state = ResState.HEADERS_DONE := by
  have h := claim_C10 connV11 ("200") ("OK") [(("Content-Length"), ("4x"))] rfl (by decide)
  exact ⟨h.1, h.2.1, (h.2.2 ("501") ("NI") [] (by decide)).1,
    (h.2.2 ("501") ("NI") [] (by decide)).2⟩
